import Mathlib

/-
  Verification development for the json-api request pipeline.

  Shallow embedding of:
  - the verb-tunneling fragment of BaseStrategy.buildRequestObject
    (src/unnamed/part_000, first file, lines 105-115);
  - the API controller pipeline: handle, makeResultFromErrors,
    resultToHTTPResponse, pickStatus (src/unnamed/part_000, second file);
  - the Mongoose adapter helpers: errorHandler, toMongoCriteria
    (src/src/db-adapters/Mongoose/lib.ts).

  JS conventions used throughout the embedding:
  - thrown / rejected values are modelled with Except;
  - optional (possibly undefined) values are modelled with Option;
  - JS objects whose keys are assigned at most once are modelled as
    association lists with unique keys (later spread entries override).
-/

namespace JsonApi

/-- APIError value (src/types/APIError is not included in src/; the shape is
taken from spec section 3: status, title, detail, optional code). -/
structure APIError where
  status : Nat
  title : Option String := none
  detail : Option String := none
  code : Option Nat := none
deriving DecidableEq

/-- An error value as it travels through the pipeline before normalization:
either already a domain APIError, or a plain JS error / arbitrary thrown
value carrying a name and a message. -/
inductive ErrValue where
  | api (e : APIError)
  | plain (name : String) (message : String)
deriving DecidableEq

/-- Modelled from the spec: APIError.fromError (src/types/APIError is not in
src/). Per spec section 7, the generic from-error coercion maps any thrown
value into the error taxonomy; a non-domain error becomes an InternalError
(500) while a value that is already an APIError is kept as is. -/
def fromError : ErrValue → APIError
  | .api e => e
  | .plain name message => { status := 500, title := some name, detail := some message }

/-- A JS rejection value as consumed by the controller's catch point:
a single error or an array of errors (type ErrOrErrArr in the source). -/
inductive Thrown where
  | single (e : ErrValue)
  | array (es : List ErrValue)
deriving DecidableEq

/-- Message of a raw sub-error (used for thisError.message in errorHandler). -/
def errMessage : ErrValue → String
  | .api e => e.detail.getD ""
  | .plain _ message => message

/- ------------------------------------------------------------------ -/
/- HTTP strategy: verb tunneling (BaseStrategy.buildRequestObject).   -/
/- ------------------------------------------------------------------ -/

/-- Embedding of the JS String.prototype.toLowerCase (per-character lowering,
adequate for the ASCII method names involved here). -/
def jsToLower (s : String) : String := ⟨s.data.map Char.toLower⟩

/-- Embedding of the JS String.prototype.toUpperCase. -/
def jsToUpper (s : String) : String := ⟨s.data.map Char.toUpper⟩

/-- Embedding of the verb-tunneling fragment of buildRequestObject
(src/unnamed/part_000, lines 105-115): the incoming method is lowercased, the
x-http-method-override header (empty string when absent) is lowercased, and
tunneling rewrites post to patch only when enabled; any other non-empty
override is rejected with a 400 APIError. The returned value is the method
recorded on the Request (ok) or the promise rejection (error). -/
def methodTunnelStep (tunnel : Bool) (reqMethod : String) (overrideHeader : Option String) :
    Except APIError String :=
  let method := jsToLower reqMethod
  let requestedMethod := jsToLower (overrideHeader.getD "")
  if tunnel = true ∧ method = "post" ∧ requestedMethod = "patch" then
    Except.ok "patch"
  else if requestedMethod ≠ "" then
    Except.error
      { status := 400
        detail := some ("Cannot tunnel to the method \"" ++ jsToUpper requestedMethod ++ "\".") }
  else
    Except.ok method

/- ------------------------------------------------------------------ -/
/- Mongoose adapter: predicate translation (toMongoCriteria).         -/
/- ------------------------------------------------------------------ -/

namespace Mongoose

/-- Carrier for the JSON value attached to a field constraint; passed through
verbatim by the criteria translation. -/
inductive JsLit where
  | str (s : String)
  | num (n : Int)
  | boolV (b : Bool)
  | nullV
  | arrV (vs : List JsLit)

/-- Logical operator of a Predicate node (operator field restricted to
and / or by the Predicate type in src/types). -/
inductive LogicalOp where
  | andOp
  | orOp
deriving DecidableEq

/-- String form of the predicate operator, as stored in the operator field. -/
def LogicalOp.name : LogicalOp → String
  | .andOp => "and"
  | .orOp => "or"

/-- Union FieldConstraint | Predicate from src/types: a Predicate carries an
and / or operator and an ordered list of sub-terms, a FieldConstraint carries
a field name, an operator name and a value. -/
inductive FilterTerm where
  | pred (op : LogicalOp) (value : List FilterTerm)
  | constraint (field : String) (op : String) (value : JsLit)

/-- Mongo criteria values produced by toMongoCriteria: nested JSON objects,
arrays and passed-through literals. -/
inductive MongoVal where
  | lit (v : JsLit)
  | obj (fields : List (String × MongoVal))
  | arrC (vs : List MongoVal)

mutual

/-- Embedding of toMongoCriteria (src/src/db-adapters/Mongoose/lib.ts,
lines 53-91): and / or with an empty value list yields the empty object;
otherwise and / or maps to the matching dollar operator over the translated
sub-terms; eq maps to a direct field assignment; every other operator is
wrapped, with neq renamed to the mongo name ne; the reserved field name id
becomes the mongo identifier field name. -/
def toMongoCriteria : FilterTerm → MongoVal
  | .pred op value =>
      if value.isEmpty then .obj []
      else .obj [("$" ++ op.name, .arrC (toMongoCriteriaList value))]
  | .constraint field op value =>
      let mongoOperator := "$" ++ (if op = "neq" then "ne" else op)
      let mongoField := if field = "id" then "_id" else field
      if op = "eq" then .obj [(mongoField, .lit value)]
      else .obj [(mongoField, .obj [(mongoOperator, .lit value)])]

/-- Pointwise translation of a list of sub-terms (the value.map in source). -/
def toMongoCriteriaList : List FilterTerm → List MongoVal
  | [] => []
  | t :: ts => toMongoCriteria t :: toMongoCriteriaList ts

end

/-- Modelled from the spec: Errors.invalidFieldValue (src/util/errors is not
in src/). Per spec section 7, a schema / validation failure on a resource
field is an UnprocessableEntity (422). -/
def invalidFieldValue (detail : String) : APIError :=
  { status := 422, title := some "Invalid field value.", detail := some detail }

/-- Modelled from the spec: Errors.uniqueViolation (src/util/errors is not in
src/). Per spec section 7, a backend uniqueness constraint failure is a
Conflict / UniqueViolation (409); the source attaches code 11000 for
backwards compatibility. -/
def uniqueViolation : APIError :=
  { status := 409, title := some "Uniqueness violation.", code := some 11000 }

/-- A raw backend (Mongo / Mongoose) failure as inspected by errorHandler:
its name, message, optional numeric code, and the optional errors collection
(validation sub-errors keyed by field, here kept in key order). A JS empty
errors object is modelled as some with an empty list (still truthy). -/
structure RawDbError where
  name : String := ""
  message : String := ""
  code : Option Int := none
  errors : Option (List ErrValue) := none

/-- View of a raw backend error as a pipeline error value (used when
errorHandler pushes the raw error unchanged). -/
def rawToErrValue (err : RawDbError) : ErrValue := .plain err.name err.message

/-- Embedding of errorHandler (src/src/db-adapters/Mongoose/lib.ts, lines
13-51). The function always throws; the returned list is the rejection
value. A truthy errors collection is converted entry-wise (ValidationError
entries to invalidFieldValue, others through the from-error coercion);
otherwise a MongoError with code 11000 becomes a uniqueViolation; otherwise
the raw error is passed along unchanged. -/
def errorHandler (err : RawDbError) : List ErrValue :=
  match err.errors with
  | some subErrors =>
      subErrors.map (fun thisError =>
        if err.name = "ValidationError" then ErrValue.api (invalidFieldValue (errMessage thisError))
        else ErrValue.api (fromError thisError))
  | none =>
      if err.name = "MongoError" ∧ err.code = some 11000 then
        [ErrValue.api uniqueViolation]
      else
        [rawToErrValue err]

end Mongoose

/- ------------------------------------------------------------------ -/
/- API controller: data model.                                        -/
/- ------------------------------------------------------------------ -/

/-- Resource: typed, identified unit of data (spec section 3); attributes and
relationships play no role in the claims and are omitted from the carrier. -/
structure Resource where
  rtype : String := ""
  id : Option String := none
deriving DecidableEq

/-- Primary data of a Document: a single Resource, a Collection (ordered
list of Resources; new Collection() is the empty one), or null. -/
inductive PrimaryData where
  | res (r : Resource)
  | coll (rs : List Resource)
  | nullData
deriving DecidableEq

/-- Document envelope (src/types/Document is not in src/; shape per spec
section 3): primary data, included resources, and / or an error sequence.
The request URI and URL templates that the source also stores affect only
link serialization and are omitted. -/
structure Document where
  primary : Option PrimaryData := none
  errors : Option (List APIError) := none
  included : Option (List Resource) := none
deriving DecidableEq

/-- DocumentData: the object literal passed to the Document constructor. -/
def DocumentData := Document

/-- The makeDoc closure of handle: builds a Document from DocumentData
(the request URI and URL templates it also injects are omitted, see
Document). -/
def makeDoc (data : DocumentData) : Document := data

/-- Result: optional Document, optional explicit HTTP status, optional
header overrides (spec section 3). Headers are an association list with
unique keys; the absent-headers case is the empty list. -/
structure Result where
  document : Option Document := none
  status : Option Nat := none
  headers : List (String × String) := []
deriving DecidableEq

/-- HTTPResponse produced by resultToHTTPResponse: status (undefined is
possible when an empty error list reaches pickStatus), header mapping, and
the Document whose serialization is the body (none for an empty body; the
toString serialization itself is out of scope per spec section 1). -/
structure HTTPResponse where
  status : Option Nat := none
  headers : List (String × String) := []
  body : Option Document := none
deriving DecidableEq

/-- Assignment of a key on a JS object modelled as a unique-key association
list: replaces the existing binding or appends a new one. -/
def objSet (o : List (String × String)) (k v : String) : List (String × String) :=
  if o.any (fun p => p.1 = k) then
    o.map (fun p => if p.1 = k then (k, v) else p)
  else
    o ++ [(k, v)]

/-- JS object spread: spreads the second object over the first, later keys
winning. -/
def objMerge (base : List (String × String)) (overrides : List (String × String)) :
    List (String × String) :=
  overrides.foldl (fun acc kv => objSet acc kv.1 kv.2) base

/-- Header lookup on the (unique-key) association list. -/
def getHeader (headers : List (String × String)) (k : String) : Option String :=
  (headers.find? (fun p => p.1 = k)).map (fun p => p.2)

/-- JS truthiness of an optional status number (0 and undefined are falsy). -/
def statusJsTruthy : Option Nat → Bool
  | some s => s ≠ 0
  | none => false

/-- JS or-with-default on an optional string (undefined and the empty string
are falsy and fall back to the default). -/
def jsStrOr (v : Option String) (dflt : String) : String :=
  match v with
  | some s => if s = "" then dflt else s
  | none => dflt

/-- Embedding of pickStatus (src/unnamed/part_000, lines 478-480): the first
element of the status list, undefined when the list is empty. -/
def pickStatus (errStatuses : List Nat) : Option Nat := errStatuses.head?

/-- The rejection value as an array (Array.isArray(errors) ? errors :
[errors]). -/
def thrownToArray : Thrown → List ErrValue
  | .single e => [e]
  | .array es => es

/-- Embedding of makeResultFromErrors (src/unnamed/part_000, lines 428-439):
coerce each error through the from-error coercion, pick the representative
status, and wrap the array in an errors Document. -/
def makeResultFromErrors (mk : DocumentData → Document) (errors : Thrown) : Result :=
  let errorsArray := (thrownToArray errors).map fromError
  let status := pickStatus (errorsArray.map (fun v => v.status))
  { document := some (mk { errors := some errorsArray }), status := status }

/-- Embedding of resultToHTTPResponse (src/unnamed/part_000, lines 441-473):
content-type and vary defaults with the Result's header overrides spread over
them; status from the explicit status (JS-truthy), else from the first error
status for an error document, else 200 for a document, else 204. -/
def resultToHTTPResponse (response : Result) (negotiatedMediaType : Option String) :
    HTTPResponse :=
  let headers := objMerge
    [("content-type", jsStrOr negotiatedMediaType "application/vnd.api+json"),
     ("vary", "Accept")]
    response.headers
  let status :=
    if statusJsTruthy response.status then response.status
    else
      match response.document with
      | some d =>
          match d.errors with
          | some errs => pickStatus (errs.map (fun it => it.status))
          | none => some 200
      | none => some 204
  { status := status, headers := headers, body := response.document }

/- ------------------------------------------------------------------ -/
/- API controller: the handle pipeline.                               -/
/- ------------------------------------------------------------------ -/

/-- The id-or-ids slot of a Request: undefined / null, a single id or label
string, or an array of ids. -/
inductive IdOrIds where
  | undef
  | one (s : String)
  | many (ids : List String)
deriving DecidableEq

/-- JS truthiness of the id-or-ids slot (undefined / null and the empty
string are falsy, arrays are always truthy). -/
def idOrIdsTruthy : IdOrIds → Bool
  | .undef => false
  | .one s => s ≠ ""
  | .many _ => true

/-- Carrier for a parsed request body (opaque: its structure is consumed
only by steps outside src/). -/
def Body := String

/-- Carrier for query parameters before and after parsing (opaque). -/
def QueryParams := List (String × String)

/-- Carrier for a raw adapter query result (opaque). -/
def RawResult := Nat

/-- Method of a Request, restricted to the four supported verbs (the switch
in handle is exhaustive over this type, matching the source's type cast). -/
inductive Method where
  | get
  | post
  | patch
  | delete
deriving DecidableEq

/-- Request (src/types/HTTP/Request is not in src/; fields per spec section 3
and their uses in handle). Pipeline mutation is modelled by functional
update. -/
structure Request where
  uri : String := ""
  method : Method := .get
  type : String := ""
  idOrIds : IdOrIds := .undef
  allowLabel : Bool := false
  aboutRelationship : Bool := false
  queryParams : QueryParams := []
  rawQueryString : Option String := none
  accepts : Option String := none
  hasBody : Bool := false
  body : Body := ""
  primary : Option PrimaryData := none

/-- Query as the orchestrator consumes it: the returning callback mapping a
raw adapter result to a Result and the optional catch callback mapping an
adapter rejection to a Result; either may itself throw. The verb-specific
payload is opaque to handle and omitted. -/
structure Query where
  returning : RawResult → Except Thrown Result
  catchFn : Option (Thrown → Except Thrown Result) := none

/-- Storage adapter surface used by handle: the declared operator lists and
doQuery. -/
structure Adapter where
  unaryFilterOperators : List String := []
  binaryFilterOperators : List String := []
  doQuery : Query → Except Thrown RawResult

/-- supportedExt of the controller class (frozen empty array in source). -/
def supportedExt : List String := []

/-- Environment of one handle invocation: the registry surface plus every
pipeline step whose implementation lives outside src/ (steps/*, transforms,
query builders). Each is an arbitrary function that may throw, which models
arbitrary behaviour of hooks, validators and the adapter. makeQuery bundles
the verb-specific query builder with the caller-supplied queryTransform
(identity by default); parseParams bundles parseQueryParams with the filter
param parser (called with the adapter's declared operator lists). -/
structure Env where
  checkMethod : Request → Except Thrown Unit
  checkBodyExistence : Request → Except Thrown Unit
  negotiate : Option String → Except Thrown String
  hasType : String → Bool
  dbAdapter : String → Adapter
  labelToIds : String → IdOrIds → Except Thrown IdOrIds
  parseParams : QueryParams → Option String → List String → List String →
    Except Thrown QueryParams
  validateContentType : Request → List String → Except Thrown Unit
  validateRequestDocument : Body → Except Thrown Unit
  parseRequestPrimary : Body → Bool → Except Thrown PrimaryData
  validateRequestResources : String → PrimaryData → Except Thrown Unit
  beforeSave : PrimaryData → Except Thrown PrimaryData
  makeQuery : Method → Request → Except Thrown Query
  beforeRenderPrimary : Option PrimaryData → Except Thrown (Option PrimaryData)
  beforeRenderIncluded : Option (List Resource) → Except Thrown (Option (List Resource))

/-- The 404 thrown when the requested type is not registered (handle,
lines 269-271). -/
def notAValidTypeError (type : String) : APIError :=
  { status := 404, detail := some (type ++ " is not a valid type.") }

/-- Body validation and parsing block of handle (lines 302-321): content
type of the body, document shape, primary parsing, resource validation for
non-relationship requests, then the beforeSave transform whose output is
stored on the request. -/
def bodySteps (env : Env) (req : Request) : Except Thrown Request :=
  if req.hasBody then do
    let _ ← env.validateContentType req supportedExt
    let _ ← env.validateRequestDocument req.body
    let parsedPrimary ← env.parseRequestPrimary req.body req.aboutRelationship
    let _ ←
      if req.aboutRelationship then Except.ok ()
      else env.validateRequestResources req.type parsedPrimary
    let primary ← env.beforeSave parsedPrimary
    Except.ok { req with primary := some primary }
  else
    Except.ok req

/-- Adapter dispatch of handle (lines 349-350): doQuery success routes
through query.returning, rejection through query.catch when provided, else
through the generic error-to-Result mapping. -/
def dispatchQuery (adapter : Adapter) (query : Query) : Except Thrown Result :=
  match adapter.doQuery query with
  | .ok raw => query.returning raw
  | .error e =>
      match query.catchFn with
      | some c => c e
      | none => Except.ok (makeResultFromErrors makeDoc e)

/-- beforeRender transforms of handle (lines 352-365): applied to the
document's primary and included data in sequence when a document is
present. -/
def renderTransforms (env : Env) (r : Result) : Except Thrown Result :=
  match r.document with
  | none => Except.ok r
  | some d =>
      match env.beforeRenderPrimary d.primary with
      | .error e => .error e
      | .ok p =>
          match env.beforeRenderIncluded d.included with
          | .error e => .error e
          | .ok i => Except.ok { r with document := some { d with primary := p, included := i } }

/-- Outcome of the stages following content negotiation, together with the
instrumentation flags: whether a query value was constructed and whether
adapter.doQuery was invoked. -/
structure StageOut where
  queryBuilt : Bool := false
  doQueryCalled : Bool := false
  outcome : Except Thrown Result

/-- Stages of the handle try block after content negotiation (lines
268-365): type existence check, label resolution, query parameter parsing,
body steps, query construction, then either the empty-label short circuit or
adapter dispatch, and finally the beforeRender transforms. -/
def afterNegotiate (env : Env) (req : Request) : StageOut :=
  if env.hasType req.type then
    let supportsLabel := idOrIdsTruthy req.idOrIds && req.allowLabel
    let mappedRes : Except Thrown (Option IdOrIds) :=
      if supportsLabel then (env.labelToIds req.type req.idOrIds).map some
      else Except.ok none
    match mappedRes with
    | .error e => { outcome := .error e }
    | .ok mappedOpt =>
      let req1 :=
        match mappedOpt with
        | some m => { req with idOrIds := m }
        | none => req
      let adapter := env.dbAdapter req.type
      match env.parseParams req1.queryParams req1.rawQueryString
          adapter.unaryFilterOperators adapter.binaryFilterOperators with
      | .error e => { outcome := .error e }
      | .ok qp =>
        let req2 := { req1 with queryParams := qp }
        match bodySteps env req2 with
        | .error e => { outcome := .error e }
        | .ok req3 =>
          match env.makeQuery req3.method req3 with
          | .error e => { outcome := .error e }
          | .ok query =>
            let labelMappedToNothing :=
              supportsLabel &&
                (match mappedOpt with
                 | some IdOrIds.undef => true
                 | some (IdOrIds.many []) => true
                 | _ => false)
            if labelMappedToNothing then
              let mapped := mappedOpt.getD IdOrIds.undef
              let primaryVal : Option PrimaryData :=
                some (if idOrIdsTruthy mapped then PrimaryData.coll [] else PrimaryData.nullData)
              let r : Result := { document := some (makeDoc { primary := primaryVal }) }
              { queryBuilt := true, doQueryCalled := false,
                outcome := renderTransforms env r }
            else
              { queryBuilt := true, doQueryCalled := true,
                outcome :=
                  match dispatchQuery adapter query with
                  | .error e => .error e
                  | .ok r => renderTransforms env r }
  else
    { outcome := .error (.single (.api (notAValidTypeError req.type))) }

/-- State of the try block when control reaches the catch / response
assembly: the negotiated content type variable (none when negotiation never
completed), the instrumentation flags, and the try outcome. -/
structure TryState where
  contentType : Option String := none
  queryBuilt : Bool := false
  doQueryCalled : Bool := false
  outcome : Except Thrown Result

/-- The try block of handle (lines 255-365): method check, body existence
check, content negotiation, then the remaining stages. -/
def handleTry (env : Env) (req : Request) : TryState :=
  match env.checkMethod req with
  | .error e => { outcome := .error e }
  | .ok _ =>
    match env.checkBodyExistence req with
    | .error e => { outcome := .error e }
    | .ok _ =>
      match env.negotiate req.accepts with
      | .error e => { outcome := .error e }
      | .ok ct =>
        let s := afterNegotiate env req
        { contentType := some ct, queryBuilt := s.queryBuilt,
          doQueryCalled := s.doQueryCalled, outcome := s.outcome }

/-- Observable output of one handle invocation: the HTTP response, together
with (for verification) the final Result it was assembled from, the content
type variable, and the instrumentation flags. -/
structure HandleOutput where
  response : HTTPResponse
  result : Result
  contentType : Option String
  doQueryCalled : Bool
  queryBuilt : Bool
deriving DecidableEq

/-- Errors field of the Document carried by a Result (projection used to
state properties of error Results). -/
def resultErrors (r : Result) : Option (List APIError) :=
  r.document.bind (fun d => d.errors)

/-- Status selection policy as the spec states it, in the spec's own words
(for comparison with resultToHTTPResponse): the Result's explicit status if
set; else, for a Document containing errors, the first error's status; else
200 for a Document with data; else 204 when there is no Document at all.
A Document with neither data nor errors is not covered by the spec's words
(none here). -/
def claimedStatus (r : Result) : Option Nat :=
  match r.status with
  | some s => some s
  | none =>
    match r.document with
    | some d =>
        match d.errors with
        | some (e :: _) => some e.status
        | _ => if d.primary.isSome then some 200 else none
    | none => some 204

/-- The success Result produced by the empty-label short circuit of handle:
an empty Collection for a truthy (empty-array) resolution, null primary for
a nullish resolution. -/
def shortCircuitResult (mapped : IdOrIds) : Result :=
  let primaryVal : Option PrimaryData :=
    some (if idOrIdsTruthy mapped then PrimaryData.coll [] else PrimaryData.nullData)
  { document := some (makeDoc { primary := primaryVal }) }

/-- Embedding of handle (src/unnamed/part_000, lines 245-388): run the try
block; on a thrown value, the single catch point converts it to an error
Result via makeResultFromErrors (logging is a side effect and is not
modelled); finally the Result is converted to an HTTP response. The Except
layer is the promise of the async function: an error value here would be a
rejection of handle itself. -/
def handle (env : Env) (req : Request) : Except Thrown HandleOutput :=
  let t := handleTry env req
  match t.outcome with
  | .ok r =>
      Except.ok
        { response := resultToHTTPResponse r t.contentType, result := r,
          contentType := t.contentType, doQueryCalled := t.doQueryCalled,
          queryBuilt := t.queryBuilt }
  | .error err =>
      let result := makeResultFromErrors makeDoc err
      Except.ok
        { response := resultToHTTPResponse result t.contentType, result := result,
          contentType := t.contentType, doQueryCalled := t.doQueryCalled,
          queryBuilt := t.queryBuilt }

/- ------------------------------------------------------------------ -/
/- Concrete environments and requests used by witnesses.              -/
/- ------------------------------------------------------------------ -/

/-- A trivial query whose returning callback yields an empty Result. -/
def trivQuery : Query :=
  { returning := fun _ => Except.ok {} }

/-- A fully benign environment: every step succeeds, the adapter returns a
raw result whose returning produces an empty Result, label resolution yields
a nullish value, and the transform hooks are identities. -/
def trivEnv : Env :=
  { checkMethod := fun _ => Except.ok ()
    checkBodyExistence := fun _ => Except.ok ()
    negotiate := fun _ => Except.ok "application/vnd.api+json"
    hasType := fun _ => true
    dbAdapter := fun _ => { doQuery := fun _ => Except.ok (0 : Nat) }
    labelToIds := fun _ _ => Except.ok IdOrIds.undef
    parseParams := fun qp _ _ _ => Except.ok qp
    validateContentType := fun _ _ => Except.ok ()
    validateRequestDocument := fun _ => Except.ok ()
    parseRequestPrimary := fun _ _ => Except.ok PrimaryData.nullData
    validateRequestResources := fun _ _ => Except.ok ()
    beforeSave := fun p => Except.ok p
    makeQuery := fun _ _ => Except.ok trivQuery
    beforeRenderPrimary := fun p => Except.ok p
    beforeRenderIncluded := fun i => Except.ok i }

/-- What handle produces for trivEnv on a default request. -/
def trivOut : HandleOutput :=
  { response := resultToHTTPResponse {} (some "application/vnd.api+json")
    result := {}
    contentType := some "application/vnd.api+json"
    doQueryCalled := true
    queryBuilt := true }

/-- Request carrying a label in its identifier slot (for the label
short-circuit witness). -/
def labelReq : Request :=
  { type := "people", idOrIds := .one "mylabel", allowLabel := true }

/-- Environment whose registry knows no type at all (for the unregistered
type witness). -/
def noTypesEnv : Env :=
  { trivEnv with hasType := fun _ => false }

/-- Request addressing a type that is not registered. -/
def unknownTypeReq : Request :=
  { type := "widgets" }

/-- A query whose returning callback produces a Result carrying a vary
header override (exercises the header spread in resultToHTTPResponse). -/
def varyOverrideQuery : Query :=
  { returning := fun _ => Except.ok { status := some 200, headers := [("vary", "X-Override")] } }

/-- Environment in which the built query overrides the vary header. -/
def varyOverrideEnv : Env :=
  { trivEnv with makeQuery := fun _ _ => Except.ok varyOverrideQuery }

/-- Projection: the vary header of the response handle fulfills with (none
if handle itself rejected). -/
def handleVary (env : Env) (req : Request) : Option (Option String) :=
  match handle env req with
  | .ok o => some (getHeader o.response.headers "vary")
  | .error _ => none

/- ------------------------------------------------------------------ -/
/- Supporting lemmas.                                                 -/
/- ------------------------------------------------------------------ -/

theorem idOrIdsTruthy_undef : idOrIdsTruthy IdOrIds.undef = false := rfl

theorem idOrIdsTruthy_many (ids : List String) : idOrIdsTruthy (IdOrIds.many ids) = true := rfl

theorem jsToLower_data (s : String) : (jsToLower s).data = s.data.map Char.toLower := rfl

theorem jsToLower_ne_empty {s : String} (h : s ≠ "") : jsToLower s ≠ "" := by
  intro hc
  apply h
  have hd : s.data.map Char.toLower = ([] : List Char) := by
    rw [← jsToLower_data, hc]
  have hnil : s.data = [] := List.map_eq_nil_iff.mp hd
  rcases s with ⟨d⟩
  simp only at hnil
  rw [hnil]

/- ------------------------------------------------------------------ -/
/- Claim theorems.                                                    -/
/- ------------------------------------------------------------------ -/

/-- C9 counterexample: at the claim's concrete request (method post, header
x-http-method-override patch, tunneling disabled) the source rejects with a
400 whose detail quotes the method name, so the detail is not the claim's
exact string (which has no quotes around PATCH). -/
theorem c9_counterexample :
    methodTunnelStep false "post" (some "patch") =
      Except.error
        { status := 400, detail := some "Cannot tunnel to the method \"PATCH\"." } ∧
    ("Cannot tunnel to the method \"PATCH\"." : String) ≠
      "Cannot tunnel to the method PATCH." := by
  exact ⟨rfl, by decide⟩

/-- C9 (amended): with tunneling disabled, a post request carrying the
override header patch is rejected with a 400 APIError whose detail is the
string Cannot tunnel to the method "PATCH". (method name quoted); with
tunneling enabled, the built request's method is patch. -/
theorem c9_tunnel_scenarios :
    methodTunnelStep false "post" (some "patch") =
      Except.error
        { status := 400, detail := some "Cannot tunnel to the method \"PATCH\"." } ∧
    methodTunnelStep true "post" (some "patch") = Except.ok "patch" := by
  exact ⟨rfl, rfl⟩

/-- C10: for every request carrying a non-empty x-http-method-override
header, unless tunneling is enabled, the method is post and the override is
patch (case-insensitively), buildRequestObject rejects with a 400 error. -/
theorem c10_tunnel_only_post_to_patch (tunnel : Bool) (reqMethod hdr : String)
    (hne : hdr ≠ "")
    (hnot : ¬(tunnel = true ∧ jsToLower reqMethod = "post" ∧ jsToLower hdr = "patch")) :
    ∃ e : APIError,
      methodTunnelStep tunnel reqMethod (some hdr) = Except.error e ∧ e.status = 400 := by
  have hlow : jsToLower hdr ≠ "" := jsToLower_ne_empty hne
  simp only [methodTunnelStep, Option.getD]
  rw [if_neg hnot, if_pos hlow]
  exact ⟨_, rfl, rfl⟩

/-- C10 witness: with tunneling enabled, an override to patch on a delete
request is still rejected with a 400. -/
theorem c10_witness :
    ∃ e : APIError,
      methodTunnelStep true "delete" (some "patch") = Except.error e ∧ e.status = 400 :=
  c10_tunnel_only_post_to_patch true "delete" "patch" (by decide) (by decide)

/-- C4: an and / or predicate with an empty value sequence translates to the
empty Mongo criteria object (an always-true filter). -/
theorem c4_empty_logical_noop (op : Mongoose.LogicalOp) :
    Mongoose.toMongoCriteria (.pred op []) = .obj [] := by
  cases op <;> simp [Mongoose.toMongoCriteria]

/-- C5: a field constraint translates eq to a direct field-to-value
assignment with no operator wrapper, every other operator to a wrapped
dollar operator with neq renamed to ne, and the reserved field name id to
the backend identifier field name. (The hypothesis keeps the statement on
field-constraint operators: and / or are predicate operators and are carried
by the pred constructor.) -/
theorem c5_field_constraint_translation (field op : String) (v : Mongoose.JsLit)
    (hop : op ≠ "and" ∧ op ≠ "or") :
    (op = "eq" →
      Mongoose.toMongoCriteria (.constraint field op v) =
        .obj [((if field = "id" then "_id" else field), .lit v)]) ∧
    (op ≠ "eq" →
      Mongoose.toMongoCriteria (.constraint field op v) =
        .obj [((if field = "id" then "_id" else field),
          .obj [("$" ++ (if op = "neq" then "ne" else op), .lit v)])]) := by
  constructor
  · intro h
    subst h
    simp [Mongoose.toMongoCriteria]
  · intro h
    simp [Mongoose.toMongoCriteria, h]

/-- C5 witness: on the reserved field id with eq the translation is a direct
assignment to the identifier field; on a plain field with neq the operator
is renamed and wrapped. -/
theorem c5_witness :
    Mongoose.toMongoCriteria (.constraint "id" "eq" (.num 3)) =
      .obj [("_id", .lit (.num 3))] ∧
    Mongoose.toMongoCriteria (.constraint "age" "neq" (.num 5)) =
      .obj [("age", .obj [("$ne", .lit (.num 5))])] := by
  constructor
  · have h := (c5_field_constraint_translation "id" "eq" (.num 3) (by decide)).1 rfl
    simpa using h
  · have h := (c5_field_constraint_translation "age" "neq" (.num 5) (by decide)).2 (by decide)
    simpa using h

/-- C1: for every request and every behaviour of the hooks, validators and
the adapter (the whole Env, including steps that throw arbitrary values),
handle never rejects: it fulfills with an HTTP-shaped response assembled by
resultToHTTPResponse from the final (possibly error-converted) Result. -/
theorem c1_handle_never_rejects (env : Env) (req : Request) :
    ∃ out : HandleOutput, handle env req = Except.ok out ∧
      out.response = resultToHTTPResponse out.result out.contentType := by
  simp only [handle]
  cases h : (handleTry env req).outcome with
  | ok r => exact ⟨_, rfl, rfl⟩
  | error e => exact ⟨_, rfl, rfl⟩

/-- C2: the status of the HTTP response equals the spec's status policy
(explicit status if set, else first error status for an error document, else
200 for a document, else 204) whenever the Result is non-degenerate: an
explicit status is a non-zero HTTP code, an errors array is non-empty, and a
document with no errors carries data. -/
theorem c2_status_selection (r : Result) (ct : Option String)
    (hstatus : ∀ s, r.status = some s → s ≠ 0)
    (hdoc : ∀ d, r.document = some d →
      d.errors ≠ some [] ∧ (d.errors = none → d.primary.isSome)) :
    (resultToHTTPResponse r ct).status = claimedStatus r := by
  rcases r with ⟨doc, st, hs⟩
  cases st with
  | some s =>
      have hs0 : s ≠ 0 := hstatus s rfl
      simp [resultToHTTPResponse, claimedStatus, statusJsTruthy, hs0]
  | none =>
      cases doc with
      | none => simp [resultToHTTPResponse, claimedStatus, statusJsTruthy]
      | some d =>
          rcases d with ⟨p, errs, inc⟩
          rcases hdoc _ rfl with ⟨hne, hprim⟩
          cases errs with
          | none =>
              have hp := hprim rfl
              simp [resultToHTTPResponse, claimedStatus, statusJsTruthy, hp]
          | some es =>
              cases es with
              | nil => exact absurd rfl hne
              | cons e rest =>
                  simp [resultToHTTPResponse, claimedStatus, statusJsTruthy, pickStatus]

/-- C2 witness: a Result with no explicit status carrying a single-error
document is answered with that error's status. -/
theorem c2_witness :
    (resultToHTTPResponse { document := some { errors := some [⟨404, none, none, none⟩] } } none).status =
      some 404 := by
  have h := c2_status_selection
    { document := some { errors := some [⟨404, none, none, none⟩] } } none
    (fun s hs => by cases hs)
    (fun d hd => by
      injection hd with hd
      subst hd
      exact ⟨by simp, fun hcontra => by cases hcontra⟩)
  simpa [claimedStatus] using h

/-- C6 counterexample: when the rejection value is the empty array, the
error-to-Result conversion produces a Document whose errors field is the
empty array, so the errors field is not always non-empty as the claim
states. -/
theorem c6_counterexample :
    resultErrors (makeResultFromErrors makeDoc (Thrown.array [])) = some [] := rfl

/-- C6 (amended): the errors field of the converted Result is exactly the
order-preserving image of the rejection value (coerced to an array) under
the generic from-error coercion — hence non-empty whenever the rejection
value is a single error or a non-empty array, and empty exactly for an
empty thrown array — and the Mongoose errorHandler always rejects with an
array, mapping a MongoError with code 11000 (no errors collection) to the
uniqueViolation error of the taxonomy. -/
theorem c6_error_normalization (t : Thrown) (err : Mongoose.RawDbError)
    (herr : err.errors = none) (hname : err.name = "MongoError")
    (hcode : err.code = some 11000) :
    resultErrors (makeResultFromErrors makeDoc t) = some ((thrownToArray t).map fromError) ∧
    (thrownToArray t ≠ [] → resultErrors (makeResultFromErrors makeDoc t) ≠ some []) ∧
    Mongoose.errorHandler err = [ErrValue.api Mongoose.uniqueViolation] := by
  refine ⟨rfl, ?_, ?_⟩
  · intro hne hcontra
    apply hne
    have hmap : (thrownToArray t).map fromError = [] := by
      have : some ((thrownToArray t).map fromError) = (some [] : Option (List APIError)) := by
        rw [← hcontra]
        rfl
      exact Option.some.inj this
    exact List.map_eq_nil_iff.mp hmap
  · simp [Mongoose.errorHandler, herr, hname, hcode]

/-- C6 witness: a single plain thrown error is coerced through fromError
into a one-element errors array, and a raw MongoError with code 11000 is
mapped by errorHandler to the uniqueViolation array. -/
theorem c6_witness :
    resultErrors (makeResultFromErrors makeDoc (Thrown.single (ErrValue.plain "TypeError" "boom"))) =
      some ((thrownToArray (Thrown.single (ErrValue.plain "TypeError" "boom"))).map fromError) ∧
    (thrownToArray (Thrown.single (ErrValue.plain "TypeError" "boom")) ≠ [] →
      resultErrors (makeResultFromErrors makeDoc (Thrown.single (ErrValue.plain "TypeError" "boom"))) ≠
        some []) ∧
    Mongoose.errorHandler { name := "MongoError", message := "dup key", code := some 11000 } =
      [ErrValue.api Mongoose.uniqueViolation] :=
  c6_error_normalization (Thrown.single (ErrValue.plain "TypeError" "boom"))
    { name := "MongoError", message := "dup key", code := some 11000 } rfl rfl rfl

/-- Every fulfilled handle output has its response assembled by
resultToHTTPResponse from its final Result and content type state. -/
theorem handle_response_shape (env : Env) (req : Request) (out : HandleOutput)
    (hout : handle env req = Except.ok out) :
    out.response = resultToHTTPResponse out.result out.contentType := by
  simp only [handle] at hout
  cases h : (handleTry env req).outcome with
  | ok r =>
      rw [h] at hout
      simp only [Except.ok.injEq] at hout
      subst hout
      rfl
  | error e =>
      rw [h] at hout
      simp only [Except.ok.injEq] at hout
      subst hout
      rfl

/-- C3: for a request whose identifier slot holds a label (labels allowed,
truthy id slot) that resolves to a nullish value or an empty id array, and
whose remaining stages succeed (identity beforeRender hooks), handle
short-circuits to a success (200) Result whose primary data is null for a
nullish resolution and an empty Collection for an empty array, and
adapter.doQuery is never invoked (though the query value itself is built). -/
theorem c3_empty_label_short_circuit (env : Env) (req : Request) (ct : String)
    (mapped : IdOrIds) (qp : QueryParams) (q : Query)
    (hMethod : env.checkMethod req = Except.ok ())
    (hBodyCheck : env.checkBodyExistence req = Except.ok ())
    (hNeg : env.negotiate req.accepts = Except.ok ct)
    (hType : env.hasType req.type = true)
    (hLabelAllowed : req.allowLabel = true)
    (hIdTruthy : idOrIdsTruthy req.idOrIds = true)
    (hResolve : env.labelToIds req.type req.idOrIds = Except.ok mapped)
    (hEmpty : mapped = IdOrIds.undef ∨ mapped = IdOrIds.many [])
    (hParams : env.parseParams req.queryParams req.rawQueryString
      (env.dbAdapter req.type).unaryFilterOperators
      (env.dbAdapter req.type).binaryFilterOperators = Except.ok qp)
    (hNoBody : req.hasBody = false)
    (hMake : env.makeQuery req.method
      { req with idOrIds := mapped, queryParams := qp } = Except.ok q)
    (hRenderP : ∀ p, env.beforeRenderPrimary p = Except.ok p)
    (hRenderI : ∀ i, env.beforeRenderIncluded i = Except.ok i) :
    handle env req = Except.ok
      { response := resultToHTTPResponse (shortCircuitResult mapped) (some ct)
        result := shortCircuitResult mapped
        contentType := some ct
        doQueryCalled := false
        queryBuilt := true } ∧
    (resultToHTTPResponse (shortCircuitResult mapped) (some ct)).status = some 200 ∧
    (mapped = IdOrIds.many [] →
      (shortCircuitResult mapped).document =
        some (makeDoc { primary := some (PrimaryData.coll []) })) ∧
    (mapped = IdOrIds.undef →
      (shortCircuitResult mapped).document =
        some (makeDoc { primary := some PrimaryData.nullData })) := by
  have hMake2 := hMake
  simp only [hLabelAllowed, hNoBody] at hMake2
  rcases hEmpty with hm | hm <;> subst hm
  · refine ⟨?_, ?_, ?_, ?_⟩
    · simp [handle, handleTry, afterNegotiate, bodySteps, renderTransforms, shortCircuitResult,
        hMethod, hBodyCheck, hNeg, hType, hLabelAllowed, hIdTruthy, hResolve, hParams, hNoBody,
        hMake2, hRenderP, hRenderI, makeDoc, idOrIdsTruthy_undef, idOrIdsTruthy_many,
        Except.map, Option.getD]
    · rfl
    · rintro ⟨⟩
    · intro _
      rfl
  · refine ⟨?_, ?_, ?_, ?_⟩
    · simp [handle, handleTry, afterNegotiate, bodySteps, renderTransforms, shortCircuitResult,
        hMethod, hBodyCheck, hNeg, hType, hLabelAllowed, hIdTruthy, hResolve, hParams, hNoBody,
        hMake2, hRenderP, hRenderI, makeDoc, idOrIdsTruthy_undef, idOrIdsTruthy_many,
        Except.map, Option.getD]
    · rfl
    · intro _
      rfl
    · rintro ⟨⟩

/-- C3 witness: a label request against the benign environment (whose label
resolution yields a nullish value) short-circuits to the null-primary
success Result without invoking doQuery. -/
theorem c3_witness :
    handle trivEnv labelReq = Except.ok
      { response := resultToHTTPResponse (shortCircuitResult IdOrIds.undef)
          (some "application/vnd.api+json")
        result := shortCircuitResult IdOrIds.undef
        contentType := some "application/vnd.api+json"
        doQueryCalled := false
        queryBuilt := true } :=
  (c3_empty_label_short_circuit trivEnv labelReq "application/vnd.api+json" IdOrIds.undef []
    trivQuery rfl rfl rfl rfl rfl rfl rfl (Or.inl rfl) rfl rfl rfl
    (fun _ => rfl) (fun _ => rfl)).1

/-- C7: when the method check, the body existence check and content
negotiation succeed but the requested type is not registered, handle
responds 404 with the corresponding error document, and neither builds a
query nor consults the adapter. -/
theorem c7_unregistered_type_404 (env : Env) (req : Request) (ct : String)
    (hMethod : env.checkMethod req = Except.ok ())
    (hBodyCheck : env.checkBodyExistence req = Except.ok ())
    (hNeg : env.negotiate req.accepts = Except.ok ct)
    (hType : env.hasType req.type = false) :
    handle env req = Except.ok
      { response := resultToHTTPResponse
          (makeResultFromErrors makeDoc
            (Thrown.single (ErrValue.api (notAValidTypeError req.type)))) (some ct)
        result := makeResultFromErrors makeDoc
          (Thrown.single (ErrValue.api (notAValidTypeError req.type)))
        contentType := some ct
        doQueryCalled := false
        queryBuilt := false } ∧
    (resultToHTTPResponse
      (makeResultFromErrors makeDoc
        (Thrown.single (ErrValue.api (notAValidTypeError req.type)))) (some ct)).status =
      some 404 ∧
    resultErrors
      (makeResultFromErrors makeDoc
        (Thrown.single (ErrValue.api (notAValidTypeError req.type)))) =
      some [notAValidTypeError req.type] := by
  refine ⟨?_, rfl, rfl⟩
  simp [handle, handleTry, afterNegotiate, hMethod, hBodyCheck, hNeg, hType]

/-- C7 witness: a request for the unregistered type widgets against the
empty registry yields the 404 error response without any adapter
involvement. -/
theorem c7_witness :
    handle noTypesEnv unknownTypeReq = Except.ok
      { response := resultToHTTPResponse
          (makeResultFromErrors makeDoc
            (Thrown.single (ErrValue.api (notAValidTypeError "widgets"))))
          (some "application/vnd.api+json")
        result := makeResultFromErrors makeDoc
          (Thrown.single (ErrValue.api (notAValidTypeError "widgets")))
        contentType := some "application/vnd.api+json"
        doQueryCalled := false
        queryBuilt := false } ∧
    (resultToHTTPResponse
      (makeResultFromErrors makeDoc
        (Thrown.single (ErrValue.api (notAValidTypeError "widgets"))))
      (some "application/vnd.api+json")).status = some 404 ∧
    resultErrors
      (makeResultFromErrors makeDoc
        (Thrown.single (ErrValue.api (notAValidTypeError "widgets")))) =
      some [notAValidTypeError "widgets"] :=
  c7_unregistered_type_404 noTypesEnv unknownTypeReq "application/vnd.api+json" rfl rfl rfl rfl

/-- C8 counterexample: a Result whose header overrides set vary (here via
the built query's returning callback) displaces the vary: Accept default,
because the source spreads the Result's headers over the defaults; so the
claim does not hold for every response produced by handle. -/
theorem c8_counterexample :
    handleVary varyOverrideEnv {} = some (some "X-Override") ∧
    ("X-Override" : String) ≠ "Accept" :=
  ⟨rfl, by decide⟩

/-- C8 (amended): every response produced by handle whose final Result
supplies no header overrides carries a vary: Accept header and a
content-type header equal to the negotiated media type, defaulting to the
primary JSON:API media type when negotiation never completed; when the
Result does supply overrides, they are spread over these defaults and take
precedence. -/
theorem c8_vary_and_content_type (env : Env) (req : Request) (out : HandleOutput)
    (hout : handle env req = Except.ok out)
    (hnoov : out.result.headers = []) :
    getHeader out.response.headers "vary" = some "Accept" ∧
    getHeader out.response.headers "content-type" =
      some (jsStrOr out.contentType "application/vnd.api+json") := by
  have hshape := handle_response_shape env req out hout
  rw [hshape]
  constructor
  · simp [resultToHTTPResponse, objMerge, hnoov, getHeader]
  · simp [resultToHTTPResponse, objMerge, hnoov, getHeader]

/-- C8 witness: the benign environment on a default request produces a
response with the vary: Accept default and the negotiated JSON:API content
type. -/
theorem c8_witness :
    getHeader trivOut.response.headers "vary" = some "Accept" ∧
    getHeader trivOut.response.headers "content-type" =
      some (jsStrOr trivOut.contentType "application/vnd.api+json") :=
  c8_vary_and_content_type trivEnv {} trivOut rfl rfl

end JsonApi
